import Mathlib

/-!
# Zoum AI firmware — verification of the coordination engine

A shallow embedding, in Lean 4, of the parts of the firmware that the
specification's testable properties talk about:

* the durable outbox store (`core/database.py`): rows, `dequeue_batch`,
  `mark_sent`, `mark_failed`, `queue_size`, `purge_old`, and the badge cache;
* one iteration of the sync thread (`main.py`, `sync_loop`);
* the CSQ → RSSI update rule of the network refresh (`drivers/gps.py`,
  `_update_network_info`);
* the NFC scan result shaping (`drivers/nfc.py`, `scan`);
* the trip state machine (`core/state_machine.py`) together with the
  per-tick handler `handle_state` of `main.py`, including the domain events
  it enqueues and the actuator commands it issues.

Modelling conventions:

* SQLite tables become Lean lists of rows kept in ascending-id order
  (ids are `AUTOINCREMENT`, so insertion order is id order); SQL `DELETE`,
  `UPDATE` and `SELECT ... ORDER BY id ASC LIMIT n` become `filter`, `map`
  and `take` on those lists.
* Wall-clock instants (`time.time()`, REAL columns) are modelled as `Int`
  and passed explicitly to each operation; the code only compares and adds
  them, so nothing depends on their being fractional.  All `time.time()`
  reads within a single `handle_state` call are modelled as the same
  instant `i.now` (the call runs in a fraction of one 0.1 s tick).
* JSON payloads are opaque strings in the outbox; the domain events built
  by `handle_state` are modelled structurally (one constructor per
  endpoint) with the fields the code sets.  Constant identity fields
  (`org_id`, `vehicle_id`, `kit_id`) coming verbatim from the configuration
  are omitted from the event model, as is the free-form `meta` dict; ISO
  timestamps are represented by the `Int` instant they are derived from.
* Library calls that are external to the repository are modelled
  abstractly: `hashlib.sha256(...).hexdigest()` becomes an arbitrary
  function `sha256hex : List Nat → String` supplied as a parameter, and
  HTTP `POST` outcomes become a boolean function of the attempted row.
* LED / buzzer invocations are recorded as `Action`s; blink durations are
  in milliseconds (`led.blink("red", 0.3, 0.3)` becomes
  `ledBlink "red" 300 300`).
* Display rendering, `time.sleep`, logging and the camera worker lifecycle
  have no effect on the machine state or the emitted events and are not
  modelled.
-/

namespace ZoumFirmware

/-! ## Outbox store — `core/database.py`

One row of the `outbox` table.  `payload` is the JSON text exactly as
stored; the store never inspects it. -/

structure OutboxRow where
  id : Nat
  ts : Int
  endpoint : String
  payload : String
  retry_count : Nat
  next_retry_at : Int
deriving DecidableEq, Repr

/-- The `outbox` table, listed in ascending `id` order (ids are assigned by
`AUTOINCREMENT`, so physical insertion order is id order).  Theorems that
need it carry the ordering as a `Pairwise` hypothesis. -/
abbrev Outbox := List OutboxRow

/-- Strict ascending-id ordering of the table, the invariant maintained by
`AUTOINCREMENT` primary keys. -/
abbrev IdSorted (db : Outbox) : Prop := db.Pairwise (fun a b => a.id < b.id)

/-- `enqueue`: `INSERT INTO outbox(ts, endpoint, payload) VALUES (?,?,?)`
with `retry_count` and `next_retry_at` taking their column defaults `0`.
The fresh id is one more than the largest id present. -/
def enqueue (now : Int) (endpoint payload : String) (db : Outbox) : Outbox :=
  db ++ [{ id := (db.map (fun r => r.id)).foldr max 0 + 1,
           ts := now, endpoint := endpoint, payload := payload,
           retry_count := 0, next_retry_at := 0 }]

/-- `dequeue_batch`: `SELECT id, endpoint, payload FROM outbox WHERE
next_retry_at <= ? ORDER BY id ASC LIMIT ?`.  Returns whole rows (the
Python returns the `(id, endpoint, payload)` projection). -/
def dequeue_batch (now : Int) (limit : Nat) (db : Outbox) : List OutboxRow :=
  (db.filter (fun r => r.next_retry_at ≤ now)).take limit

/-- `mark_sent(ids)`: `DELETE FROM outbox WHERE id IN (...)`.  (The Python
early-returns on an empty id list, which coincides with filtering by the
empty list.) -/
def mark_sent (ids : List Nat) (db : Outbox) : Outbox :=
  db.filter (fun r => !(ids.contains r.id))

/-- `mark_failed(id)`: look the row up; if absent, return; otherwise set
`retry_count` to `retries = retry_count + 1` and `next_retry_at` to
`now + min(5 * 2 ** retries, 600)` on every row with that id (the primary
key makes it unique). -/
def mark_failed (now : Int) (row_id : Nat) (db : Outbox) : Outbox :=
  match db.find? (fun r => r.id == row_id) with
  | none => db
  | some row =>
      let retries : Nat := row.retry_count + 1
      let delay : Int := min (5 * 2 ^ retries) 600
      db.map (fun r =>
        if r.id == row_id then
          { r with retry_count := retries, next_retry_at := now + delay }
        else r)

/-- `queue_size`: `SELECT COUNT(*) FROM outbox`. -/
def queue_size (db : Outbox) : Nat := db.length

/-- Number of rows tagged `telemetry` (used to describe `purge_old`). -/
def telemetryCount (db : Outbox) : Nat :=
  (db.filter (fun r => r.endpoint == "telemetry")).length

/-- `purge_old(max_items)`: if the total count exceeds `max_items`, delete
the rows whose ids are the first `excess = total - max_items` ids of
`SELECT id FROM outbox WHERE endpoint='telemetry' ORDER BY id ASC`. -/
def purge_old (max_items : Nat) (db : Outbox) : Outbox :=
  let total := db.length
  if total ≤ max_items then db
  else
    let excess := total - max_items
    let victims := ((db.filter (fun r => r.endpoint == "telemetry")).take excess).map
      (fun r => r.id)
    db.filter (fun r => !(victims.contains r.id))

/-- One `badge_cache` row (`uid_hash` is the primary key). -/
structure BadgeCacheRow where
  uid_hash : String
  driver_id : String
  driver_name : String
deriving DecidableEq, Repr

/-- `lookup_badge`: `SELECT driver_id, driver_name FROM badge_cache WHERE
uid_hash=?`, `None` when absent. -/
def lookup_badge (cache : List BadgeCacheRow) (h : String) : Option BadgeCacheRow :=
  cache.find? (fun c => c.uid_hash == h)

/-! ## Sync thread — `main.py`, `sync_loop`

One iteration of the loop body: `purge_old`; `dequeue_batch`; for each item
in order, `api.post` the payload, on success `mark_sent([rid])`, on failure
`mark_failed(rid)` and break.  The HTTP outcome (2xx versus anything else,
including transport errors) is external to the repository and is modelled
by a boolean function of the attempted row. -/

/-- Record of the store operations the iteration performs, in order. -/
inductive SyncAction where
  | sent (id : Nat)
  | failed (id : Nat)
deriving DecidableEq, Repr

/-- The id an action acknowledged or failed. -/
def SyncAction.rowId : SyncAction → Nat
  | .sent i => i
  | .failed i => i

/-- The `for rid, endpoint, payload in batch` loop of `sync_loop`: post each
row, `mark_sent` on success, `mark_failed` then `break` on the first
failure. -/
def syncSend (post : OutboxRow → Bool) (now : Int) :
    Outbox → List OutboxRow → Outbox × List SyncAction
  | db, [] => (db, [])
  | db, r :: rest =>
      if post r then
        let step := syncSend post now (mark_sent [r.id] db) rest
        (step.1, .sent r.id :: step.2)
      else
        (mark_failed now r.id db, [.failed r.id])

/-- One full iteration of `sync_loop`: `purge_old` (default cap 50000),
`dequeue_batch(BATCH_SIZE)`, then the send loop. -/
def sync_iteration (post : OutboxRow → Bool) (now : Int) (limit : Nat)
    (db : Outbox) : Outbox × List SyncAction :=
  let db1 := purge_old 50000 db
  syncSend post now db1 (dequeue_batch now limit db1)

/-! ## Network refresh — `drivers/gps.py`, `_update_network_info`

After `int(parts[0])` has parsed the CSQ value from a `+CSQ:` line, the
code updates the cached RSSI only under `0 < csq < 31`:

```
csq = int(parts[0])
if 0 < csq < 31:
    _data["signal_strength_rssi"] = -113 + 2 * csq
```

`csqUpdate v rssi` is the new value of `_data["signal_strength_rssi"]`
when the parsed value is `v` and the cached value is `rssi`. -/

def csqUpdate (csq : Int) (rssi : Int) : Int :=
  if 0 < csq ∧ csq < 31 then -113 + 2 * csq else rssi

/-! ## NFC driver — `drivers/nfc.py`, `scan` -/

/-- Uppercase hex digit, for `f"{b:02X}"`. -/
def hexDigitU (n : Nat) : Char := "0123456789ABCDEF".toList.getD n '0'

/-- Two-digit uppercase hex of one byte (`f"{b:02X}"` for `b < 256`). -/
def byteHexU (b : Nat) : String :=
  String.mk [hexDigitU (b / 16 % 16), hexDigitU (b % 16)]

/-- `":".join(f"{b:02X}" for b in uid)`. -/
def uidHexOf (uid : List Nat) : String :=
  String.intercalate ":" (uid.map byteHexU)

/-- The dictionary `scan` returns for a detected badge: colon-separated
uppercase hex uid, the raw bytes, and `hashlib.sha256(bytes).hexdigest()`.
The `firmware` field is omitted (never read by the state machine). -/
structure Badge where
  uid : String
  uid_raw : List Nat
  uid_hash : String
deriving DecidableEq, Repr

/-- `scan`: `None` when no target is present within the timeout, otherwise
the uid dictionary.  The SHA-256 hex digest is `hashlib` library code, so
it enters the model as the abstract function `sha256hex`. -/
def scan (sha256hex : List Nat → String) (target : Option (List Nat)) :
    Option Badge :=
  target.map (fun u =>
    { uid := uidHexOf u, uid_raw := u, uid_hash := sha256hex u })

/-! ## State machine — `core/state_machine.py` -/

/-- The state constants of `state_machine.py`. -/
inductive StName where
  | BOOT | READY | AUTH_NFC | ALCOHOL_CHECK
  | TRIP_ACTIVE | TRIP_STOP_CONFIRM | WARNING_LOCK | MENU
deriving DecidableEq, Repr

/-- The alcohol sub-phase constants `ALC_WARMUP / ALC_BLOW / ALC_PASS /
ALC_FAIL`. -/
inductive AlcPhase where
  | warmup | blow | pass | fail
deriving DecidableEq, Repr

/-- Button events delivered by `buttons.poll()`. -/
inductive Btn where
  | start | stop | menu | back
deriving DecidableEq, Repr

/-- The `State` dataclass.  `changed_at` is the timestamp recorded by
`transition` (and at construction); `alcohol_start` is the phase-start
instant `handle_state` keeps in the same object. -/
structure SMState where
  current : StName
  previous : StName
  driver_id : Option String
  driver_name : String
  badge_uid : Option String
  trip_id : Option String
  trip_start_time : Option Int
  alcohol_phase : AlcPhase
  alcohol_start : Int
  alcohol_result : Option String
  menu_page : Nat
  changed_at : Int
deriving DecidableEq, Repr

/-- The dataclass defaults, constructed at instant `t`
(`changed_at = field(default_factory=time.time)`). -/
def initState (t : Int) : SMState :=
  { current := .BOOT, previous := .BOOT, driver_id := none,
    driver_name := "—", badge_uid := none, trip_id := none,
    trip_start_time := none, alcohol_phase := .warmup, alcohol_start := 0,
    alcohol_result := none, menu_page := 0, changed_at := t }

/-- `State.transition`: no-op when the target equals the current state,
otherwise shift `current` into `previous` and stamp `changed_at`. -/
def transition (s : SMState) (now : Int) (new : StName) : SMState :=
  if new = s.current then s
  else { s with previous := s.current, current := new, changed_at := now }

/-- `State.reset_auth`. -/
def reset_auth (s : SMState) : SMState :=
  { s with driver_id := none, driver_name := "—", badge_uid := none }

/-- `State.reset_trip`. -/
def reset_trip (s : SMState) : SMState :=
  { s with trip_id := none, trip_start_time := none }

/-- `State.reset_alcohol`. -/
def reset_alcohol (s : SMState) : SMState :=
  { s with alcohol_phase := .warmup, alcohol_start := 0,
           alcohol_result := none }

/-! ## Main loop tick — `main.py`, `handle_state`

One call of `handle_state(state, btn, driver_status, api)`.  Everything
the surrounding environment feeds into that call is gathered into `Input`:
the wall clock, the polled button, the NFC scan result, the badge-cache
contents, the gas line, the published fatigue level, the cabin temperature
(`temp_data.get("temperature_c") or 0` already applied), the GPS position,
and the UUID v4 the standard library would mint for a new trip. -/

/-- Firmware version string of `main.py`. -/
def FW_VERSION : String := "2.0.0"

/-- The configuration values `handle_state` reads (`config.py` defaults,
overridable through the environment, hence parameters here). -/
structure Config where
  alcohol_warmup_s : Int := 20
  alcohol_blow_s : Int := 7
  temp_warn_c : Int := 40
  temp_critical_c : Int := 50
deriving DecidableEq, Repr

/-- `config.py` defaults. -/
def defaultConfig : Config := {}

/-- Environment of one tick. -/
structure Input where
  now : Int
  btn : Option Btn
  badge : Option Badge
  cache : List BadgeCacheRow
  gasDetected : Bool
  fatigueLevel : Nat
  tempC : Int
  lat : Int
  lon : Int
  freshTripId : String
deriving DecidableEq, Repr

/-- A domain event enqueued into the outbox, one constructor per endpoint
tag `handle_state` uses.  Constant identity fields and the free-form
`meta` object are omitted (see the module comment); ISO timestamps are
the `Int` instant they are rendered from. -/
inductive Event where
  | health (time : Int) (firmware_version : String)
  | nfc_auth (ts : Int) (badge_uid_hash driver_id auth_result : String)
      (lat lon : Int)
  | alcohol (ts_start ts_end : Int) (driver_id : Option String)
      (ttl_state : Bool) (result : String)
  | alert (ts : Int) (trip_id : Option String)
      (alert_type severity message : String)
  | trip_open (trip_id : String) (driver_id : Option String)
      (start_time : Int) (start_lat start_lon : Int)
  | trip_close (trip_id : Option String) (end_time : Int)
      (end_lat end_lon : Int) (status : String)
deriving DecidableEq, Repr

/-- Whether an event targets the `trip_open` endpoint. -/
def Event.isTripOpen : Event → Bool
  | .trip_open _ _ _ _ _ => true
  | _ => false

/-- Whether an event is an `alert` with `alert_type = "fatigue_alert"`. -/
def Event.isFatigueAlert : Event → Bool
  | .alert _ _ t _ _ => t == "fatigue_alert"
  | _ => false

/-- An actuator command issued during the tick.  Blink durations are in
milliseconds. -/
inductive Action where
  | ledSet (name : String)
  | ledBlink (color : String) (onMs offMs : Nat)
  | ledStopBlink
  | buzzer (pattern : String)
deriving DecidableEq, Repr

/-- Last `n` characters of a string (`s[-n:]`). -/
def strTakeRight (s : String) (n : Nat) : String :=
  String.mk (s.toList.drop (s.toList.length - n))

/-- One call of `handle_state`: the updated `State`, the events enqueued
(in order), and the actuator commands issued (in order).  Each branch
mirrors the corresponding block of `main.py`. -/
def handle_state (cfg : Config) (s : SMState) (i : Input) :
    SMState × List Event × List Action :=
  match s.current with
  | .BOOT =>
      -- boot screen, info LED and beep, `health` event, → READY, ok LED
      (transition s i.now .READY,
       [.health i.now FW_VERSION],
       [.ledSet "info", .buzzer "info", .ledSet "ok"])
  | .READY =>
      match i.btn with
      | some .start => (transition s i.now .AUTH_NFC, [], [.buzzer "info"])
      | some .menu => (transition s i.now .MENU, [], [])
      | _ => (s, [], [])
  | .AUTH_NFC =>
      if i.btn = some .back then
        (transition (reset_auth s) i.now .READY, [], [])
      else
        let scanned : SMState × List Event × List Action :=
          match i.badge with
          | some badge =>
              let cached := lookup_badge i.cache badge.uid_hash
              let resolved : String × String :=
                match cached with
                | some c => (c.driver_id, c.driver_name)
                | none => (badge.uid_hash.take 8,
                           "Badge " ++ strTakeRight badge.uid 8)
              let auth_result : String :=
                match cached with
                | some _ => "success"
                | none => "offline_allowed"
              let s1 := { s with driver_id := some resolved.1,
                                 driver_name := resolved.2,
                                 badge_uid := some badge.uid }
              let ev : Event := .nfc_auth i.now badge.uid_hash resolved.1
                auth_result i.lat i.lon
              let s2 := transition s1 i.now .ALCOHOL_CHECK
              ({ reset_alcohol s2 with alcohol_start := i.now },
               [ev], [.buzzer "success", .ledSet "ok"])
          | none => (s, [], [])
        -- 60 s timeout check, evaluated after the scan branch
        if i.now - scanned.1.changed_at > 60 then
          (transition scanned.1 i.now .READY, scanned.2.1, scanned.2.2)
        else scanned
  | .ALCOHOL_CHECK =>
      let elapsed := i.now - s.alcohol_start
      let phased : SMState × List Event × List Action :=
        match s.alcohol_phase with
        | .warmup =>
            if cfg.alcohol_warmup_s ≤ elapsed then
              ({ s with alcohol_phase := .blow, alcohol_start := i.now },
               [], [.buzzer "info"])
            else (s, [], [])
        | .blow =>
            if cfg.alcohol_blow_s ≤ elapsed then
              let alc_fail := i.gasDetected
              let evAlc : Event := .alcohol i.now i.now s.driver_id
                (!alc_fail) (if alc_fail then "fail" else "pass")
              if alc_fail then
                ({ s with alcohol_result := some "fail",
                          alcohol_phase := .fail },
                 [evAlc,
                  .alert i.now none "alcohol_fail" "critical"
                    "Alcooltest échoué — trajet bloqué"],
                 [.buzzer "critical", .ledBlink "red" 300 300])
              else
                ({ s with alcohol_result := some "pass",
                          alcohol_phase := .pass },
                 [evAlc], [.buzzer "success", .ledSet "ok"])
            else (s, [], [])
        | .pass =>
            if i.btn = some .start then
              let s1 := { s with trip_id := some i.freshTripId,
                                 trip_start_time := some i.now }
              (transition s1 i.now .TRIP_ACTIVE,
               [.trip_open i.freshTripId s1.driver_id i.now i.lat i.lon],
               [.buzzer "success"])
            else (s, [], [])
        | .fail =>
            if i.btn = some .start then
              ({ reset_alcohol s with alcohol_start := i.now }, [], [])
            else if i.btn = some .back then
              (transition (reset_alcohol (reset_auth s)) i.now .READY,
               [], [.ledStopBlink, .ledSet "ok"])
            else (s, [], [])
      -- the trailing global `back` check, skipped in phase FAIL
      if i.btn = some .back ∧ phased.1.alcohol_phase ≠ .fail then
        (transition (reset_alcohol (reset_auth phased.1)) i.now .READY,
         phased.2.1, phased.2.2)
      else phased
  | .TRIP_ACTIVE =>
      let fat := i.fatigueLevel
      let fatigue : List Event × List Action :=
        if 2 ≤ fat then
          ([.alert i.now s.trip_id "fatigue_alert" "critical"
              ("Alerte fatigue niveau " ++ toString fat)],
           [.ledBlink "red" 200 200, .buzzer "critical"])
        else if fat = 1 then ([], [.ledSet "warning"])
        else ([], [.ledStopBlink, .ledSet "ok"])
      let gasPart : List Event × List Action :=
        if i.gasDetected then
          ([.alert i.now s.trip_id "gas_detected" "critical"
              "Gaz détecté dans l\x27habitacle"],
           [.buzzer "critical"])
        else ([], [])
      let tempPart : List Event × List Action :=
        if cfg.temp_critical_c ≤ i.tempC then
          ([.alert i.now s.trip_id "temp_critical" "critical"
              "Température cabine critique"],
           [.buzzer "critical"])
        else if cfg.temp_warn_c ≤ i.tempC then ([], [.buzzer "warning"])
        else ([], [])
      let stepped : SMState × List Action :=
        match i.btn with
        | some .stop => (transition s i.now .TRIP_STOP_CONFIRM,
                         [.buzzer "info"])
        | some .menu => (transition s i.now .MENU, [])
        | _ => (s, [])
      (stepped.1,
       fatigue.1 ++ gasPart.1 ++ tempPart.1,
       fatigue.2 ++ gasPart.2 ++ tempPart.2 ++ stepped.2)
  | .TRIP_STOP_CONFIRM =>
      match i.btn with
      | some .start =>
          (transition (reset_auth (reset_trip s)) i.now .READY,
           [.trip_close s.trip_id i.now i.lat i.lon "stopped_by_button"],
           [.ledStopBlink, .ledSet "ok", .buzzer "success"])
      | some .back => (transition s i.now .TRIP_ACTIVE, [], [])
      | _ => (s, [], [])
  | .MENU =>
      match i.btn with
      | some .menu => ({ s with menu_page := (s.menu_page + 1) % 4 }, [], [])
      | some .back =>
          (transition { s with menu_page := 0 } i.now s.previous, [], [])
      | _ => (s, [], [])
  | .WARNING_LOCK => (s, [], [])

/-- The state after one tick. -/
def nextState (cfg : Config) (s : SMState) (i : Input) : SMState :=
  (handle_state cfg s i).1

/-- The events the tick enqueued, in order. -/
def stepEvents (cfg : Config) (s : SMState) (i : Input) : List Event :=
  (handle_state cfg s i).2.1

/-- The actuator commands the tick issued, in order. -/
def stepActions (cfg : Config) (s : SMState) (i : Input) : List Action :=
  (handle_state cfg s i).2.2

/-- Run a sequence of ticks, accumulating the enqueued events. -/
def runEvents (cfg : Config) : SMState → List Input → SMState × List Event
  | s, [] => (s, [])
  | s, i :: rest =>
      let tail := runEvents cfg (nextState cfg s i) rest
      (tail.1, stepEvents cfg s i ++ tail.2)

/-- The states the main loop can reach from boot, under arbitrary button
events, sensor values, scans and clocks.  (`handle_state` is the sole
mutator of the `State` object.) -/
inductive Reachable (cfg : Config) : SMState → Prop
  | boot (t : Int) : Reachable cfg (initState t)
  | step {s : SMState} (i : Input) :
      Reachable cfg s → Reachable cfg (nextState cfg s i)

/-! ## Invariants used by the state-machine theorems -/

/-- Inductive invariant of the reachable states: `trip_id` is set exactly
in `TRIP_ACTIVE`, `TRIP_STOP_CONFIRM`, and a `MENU` entered from
`TRIP_ACTIVE`; `MENU` is only ever entered from `READY` or `TRIP_ACTIVE`;
`ALCOHOL_CHECK` is only ever entered from `AUTH_NFC`. -/
def Inv (s : SMState) : Prop :=
  (s.trip_id.isSome = true ↔
    (s.current = .TRIP_ACTIVE ∨ s.current = .TRIP_STOP_CONFIRM ∨
     (s.current = .MENU ∧ s.previous = .TRIP_ACTIVE))) ∧
  (s.current = .MENU → (s.previous = .READY ∨ s.previous = .TRIP_ACTIVE)) ∧
  (s.current = .ALCOHOL_CHECK → s.previous = .AUTH_NFC)

/-- States from which, as long as every gas read says "detected", the
machine can never open a trip: not in a trip, not one `back` away from a
trip, and not holding a passed alcohol test. -/
def NoTripWindow (s : SMState) : Prop :=
  s.current ≠ .TRIP_ACTIVE ∧ s.current ≠ .TRIP_STOP_CONFIRM ∧
  s.previous ≠ .TRIP_ACTIVE ∧ s.previous ≠ .TRIP_STOP_CONFIRM ∧
  s.alcohol_phase ≠ .pass

/-! ## Concrete stores and traces used by witnesses and counterexamples -/

/-- A two-row outbox holding only `alert` rows. -/
def exDbAlerts : Outbox :=
  [{ id := 1, ts := 0, endpoint := "alert", payload := "a",
     retry_count := 0, next_retry_at := 0 },
   { id := 2, ts := 0, endpoint := "alert", payload := "b",
     retry_count := 0, next_retry_at := 0 }]

/-- A single telemetry row. -/
def exRow1 : OutboxRow :=
  { id := 1, ts := 0, endpoint := "telemetry", payload := "p",
    retry_count := 0, next_retry_at := 0 }

/-- A one-row outbox. -/
def exDb1 : Outbox := [exRow1]

/-- Two telemetry rows followed by an alert row. -/
def exDbMixed : Outbox :=
  [{ id := 1, ts := 0, endpoint := "telemetry", payload := "t1",
     retry_count := 0, next_retry_at := 0 },
   { id := 2, ts := 0, endpoint := "telemetry", payload := "t2",
     retry_count := 0, next_retry_at := 0 },
   { id := 3, ts := 0, endpoint := "alert", payload := "a",
     retry_count := 0, next_retry_at := 0 }]

/-- Three due rows with ids 1, 2, 3. -/
def exDbSync : Outbox :=
  [{ id := 1, ts := 0, endpoint := "telemetry", payload := "x",
     retry_count := 0, next_retry_at := 0 },
   { id := 2, ts := 0, endpoint := "alert", payload := "y",
     retry_count := 0, next_retry_at := 0 },
   { id := 3, ts := 0, endpoint := "telemetry", payload := "z",
     retry_count := 0, next_retry_at := 0 }]

/-- Quiet tick environment: no button, no badge, nominal sensors. -/
def baseInput : Input :=
  { now := 0, btn := none, badge := none, cache := [], gasDetected := false,
    fatigueLevel := 0, tempC := 20, lat := 6, lon := 2, freshTripId := "T1" }

/-- A scanned badge (hash value is irrelevant to the trace theorems). -/
def exBadge : Badge :=
  { uid := "04:A1:B2:C3", uid_raw := [4, 161, 178, 195],
    uid_hash := "a1b2c3d4e5f6" }

/-- Tick 1: boot banner tick. -/
def tIn1 : Input := baseInput

/-- Tick 2: `start` pressed in READY. -/
def tIn2 : Input := { baseInput with now := 1, btn := some .start }

/-- Tick 3: badge presented in AUTH_NFC. -/
def tIn3 : Input := { baseInput with now := 2, badge := some exBadge }

/-- Tick 4: warmup elapsed (20 s after tick 3). -/
def tIn4 : Input := { baseInput with now := 22 }

/-- Tick 5: blow elapsed, gas clear → alcohol pass. -/
def tIn5 : Input := { baseInput with now := 29 }

/-- Tick 5 variant: blow elapsed with gas detected → alcohol fail. -/
def tIn5g : Input := { baseInput with now := 29, gasDetected := true }

/-- Tick 6: `start` pressed on the pass screen → trip opens. -/
def tIn6 : Input := { baseInput with now := 30, btn := some .start }

/-- Tick 7: `menu` pressed during the trip. -/
def tIn7 : Input := { baseInput with now := 31, btn := some .menu }

/-- One trip-active tick with published fatigue level 2. -/
def iFat : Input := { baseInput with now := 32, fatigueLevel := 2 }

/-- The state after running the given ticks from boot at instant 0, with
the default configuration. -/
def runFrom (l : List Input) : SMState :=
  l.foldl (nextState defaultConfig) (initState 0)

/-- Mid-session state: alcohol blow phase in progress. -/
def sBlowState : SMState := runFrom [tIn1, tIn2, tIn3, tIn4]

/-- State with an open trip (`trip_id = "T1"`). -/
def sTripActive : SMState := runFrom [tIn1, tIn2, tIn3, tIn4, tIn5, tIn6]

/-- State in MENU entered from TRIP_ACTIVE, `trip_id` still set. -/
def sMenuTrip : SMState := runFrom [tIn1, tIn2, tIn3, tIn4, tIn5, tIn6, tIn7]

/-- Waiting state in AUTH_NFC (used by the NFC witness). -/
def sAuthState : SMState := runFrom [tIn1, tIn2]

/-- Stand-in for the SHA-256 hex digest in witnesses (the digest value
itself is opaque to the firmware). -/
def exSha : List Nat → String := fun _ => "0123456789abcdef0123456789abcdef"

/-- The uid bytes of the specification's happy-path scenario. -/
def uidEx : List Nat := [4, 161, 178, 195]

/-- Tick presenting `uidEx` through the modelled `scan`. -/
def iBadgeW : Input :=
  { baseInput with now := 2, badge := scan exSha (some uidEx) }

/-! ## Helper lemmas -/

/-- In an id-sorted table, `find?` by a member's id returns that member. -/
lemma find?_id_eq {db : Outbox} {row : OutboxRow}
    (hs : IdSorted db) (hmem : row ∈ db) :
    db.find? (fun r => r.id == row.id) = some row := by
  induction db with
  | nil => simp at hmem
  | cons h t ih =>
      rcases List.mem_cons.mp hmem with rfl | hmem'
      · exact List.find?_cons_of_pos _ (by simp)
      · have hlt : h.id < row.id := (List.pairwise_cons.mp hs).1 row hmem'
        have hne : (h.id == row.id) = false := by
          simp only [beq_eq_false_iff_ne, ne_eq]
          omega
        rw [List.find?_cons_of_neg _ (by simp [hne])]
        exact ih (List.pairwise_cons.mp hs).2 hmem'

/-- Id-sorted tables have pairwise-distinct ids. -/
lemma idSorted_id_nodup {db : Outbox} (hs : IdSorted db) :
    (db.map (fun r => r.id)).Nodup := by
  rw [List.Nodup, List.pairwise_map]
  exact hs.imp (fun h => Nat.ne_of_lt h)

/-- In an id-sorted table, equal ids mean equal rows. -/
lemma idSorted_id_inj {db : Outbox} (hs : IdSorted db) {a b : OutboxRow}
    (ha : a ∈ db) (hb : b ∈ db) (hid : a.id = b.id) : a = b :=
  List.inj_on_of_nodup_map (idSorted_id_nodup hs) ha hb hid

/-! ## C1 — `mark_failed` backoff -/

/-- C1.  For every row present in the store with retry count `r`,
`mark_failed` on its id sets `retry_count` to `r + 1` and `next_retry_at`
to `now + min(5 * 2 ^ (r + 1), 600)` (so after the k-th consecutive
failure of an item, counting from 1, the delay is `min(5 * 2 ^ k, 600)`),
and every other row keeps its place in the store. -/
theorem mark_failed_backoff (db : Outbox) (now : Int) (row : OutboxRow)
    (hs : IdSorted db) (hmem : row ∈ db) :
    { row with retry_count := row.retry_count + 1,
               next_retry_at := now + min (5 * 2 ^ (row.retry_count + 1)) 600 }
      ∈ mark_failed now row.id db
    ∧ ∀ r ∈ db, r.id ≠ row.id → r ∈ mark_failed now row.id db := by
  have hf := find?_id_eq hs hmem
  unfold mark_failed
  rw [hf]
  constructor
  · have hm := List.mem_map_of_mem
      (f := fun r => if r.id == row.id then
        { r with retry_count := row.retry_count + 1,
                 next_retry_at := now + min (5 * 2 ^ (row.retry_count + 1)) 600 }
        else r) hmem
    simpa using hm
  · intro r hr hne
    have hm := List.mem_map_of_mem
      (f := fun r => if r.id == row.id then
        { r with retry_count := row.retry_count + 1,
                 next_retry_at := now + min (5 * 2 ^ (row.retry_count + 1)) 600 }
        else r) hr
    simpa [hne] using hm

/-- C1 witness: first failure of a fresh row at instant 100 reschedules it
to `100 + min(5 * 2, 600) = 110`. -/
theorem mark_failed_backoff_witness :
    IdSorted exDb1 ∧ exRow1 ∈ exDb1 ∧
    { exRow1 with retry_count := 1,
                  next_retry_at := 100 + min (5 * 2 ^ 1) 600 }
      ∈ mark_failed 100 exRow1.id exDb1 :=
  ⟨by decide, by decide,
   (mark_failed_backoff exDb1 100 exRow1 (by decide) (by decide)).1⟩

/-! ## C9 — `mark_sent` idempotence -/

/-- C9.  Deleting the same id set twice equals deleting it once: the
second `mark_sent` removes nothing and alters no surviving row. -/
theorem mark_sent_idempotent (ids : List Nat) (db : Outbox) :
    mark_sent ids (mark_sent ids db) = mark_sent ids db := by
  unfold mark_sent
  rw [List.filter_filter]
  simp [Bool.and_self]

/-! ## C10 — `mark_failed` on an absent id -/

/-- C10.  When no row carries the requested id (for example after
`mark_sent` or a purge already deleted it), `mark_failed` returns with the
store untouched. -/
theorem mark_failed_absent (db : Outbox) (now : Int) (rid : Nat)
    (habs : ∀ r ∈ db, r.id ≠ rid) :
    mark_failed now rid db = db := by
  unfold mark_failed
  have h : db.find? (fun r => r.id == rid) = none := by
    rw [List.find?_eq_none]
    intro r hr
    simpa using habs r hr
  rw [h]

/-- C10 witness: failing the absent id 99 leaves the one-row store as is. -/
theorem mark_failed_absent_witness :
    (∀ r ∈ exDb1, r.id ≠ 99) ∧ mark_failed 5 99 exDb1 = exDb1 :=
  ⟨by decide, mark_failed_absent exDb1 5 99 (by decide)⟩

/-! ## C6 — CSQ → RSSI mapping -/

/-- C6 counterexample: the source guards the update with `0 < csq < 31`,
so the boundary values CSQ = 0 and CSQ = 31 leave the cached RSSI
unchanged, where the claim predicts updates to −113 dBm and −51 dBm. -/
theorem csq_boundary_refuted :
    csqUpdate 31 (-1) = -1 ∧ csqUpdate 31 (-1) ≠ -113 + 2 * 31 ∧
    csqUpdate 0 (-1) = -1 ∧ csqUpdate 0 (-1) ≠ -113 := by
  refine ⟨by decide, by decide, by decide, by decide⟩

/-- C6 amended.  The refresh updates `signal_strength_rssi` to
`-113 + 2 * v` exactly when `0 < v < 31` (CSQ 1 to 30); CSQ = 0, CSQ = 31
and out-of-range values such as CSQ = 99 all leave it unchanged. -/
theorem csq_update_range (v rssi : Int) :
    (0 < v ∧ v < 31 → csqUpdate v rssi = -113 + 2 * v) ∧
    ((v ≤ 0 ∨ 31 ≤ v) → csqUpdate v rssi = rssi) := by
  constructor
  · intro h
    simp [csqUpdate, h]
  · intro h
    have hn : ¬ (0 < v ∧ v < 31) := by omega
    simp [csqUpdate, hn]

/-- C6 witness: CSQ 18 maps to −77 dBm; CSQ 99 leaves −77 in place. -/
theorem csq_update_range_witness :
    csqUpdate 18 (-1) = -113 + 2 * 18 ∧ csqUpdate 99 (-77) = -77 :=
  ⟨(csq_update_range 18 (-1)).1 (by decide),
   (csq_update_range 99 (-77)).2 (by decide)⟩

/-! ## C2 — `purge_old` -/

/-- A sublist of an id-sorted table is recovered by filtering the table
for its ids. -/
lemma filter_mem_ids : ∀ {db V : Outbox}, V.Sublist db → IdSorted db →
    db.filter (fun r => ((V.map (fun x => x.id)).contains r.id)) = V := by
  intro db V hsub
  induction hsub with
  | slnil => intro _; rfl
  | @cons l₁ l₂ a hsub ih =>
      intro hs
      have hpc := List.pairwise_cons.mp hs
      have ha : ((l₁.map (fun x => x.id)).contains a.id) = false := by
        rw [Bool.eq_false_iff]
        intro hc
        obtain ⟨b, hb, hbeq⟩ := List.contains_iff_exists_mem_beq.mp hc
        obtain ⟨r, hr, rfl⟩ := List.mem_map.mp hb
        have hlt := hpc.1 r (hsub.subset hr)
        have : a.id = r.id := by simpa using hbeq
        omega
      rw [List.filter_cons]
      simp only [ha, Bool.false_eq_true, if_false]
      exact ih hpc.2
  | @cons₂ l₁ l₂ a hsub ih =>
      intro hs
      have hpc := List.pairwise_cons.mp hs
      rw [List.filter_cons]
      have hqa : (((a :: l₁).map (fun x => x.id)).contains a.id) = true := by
        simp
      have htail : l₂.filter (fun r => (((a :: l₁).map (fun x => x.id)).contains r.id))
          = l₂.filter (fun r => ((l₁.map (fun x => x.id)).contains r.id)) := by
        apply List.filter_congr
        intro r hr
        have hlt := hpc.1 r hr
        have hne : (r.id == a.id) = false := by
          simp only [beq_eq_false_iff_ne, ne_eq]
          omega
        rw [List.map_cons, List.contains_cons, hne, Bool.false_or]
      simp only [hqa, if_true]
      rw [htail, ih hpc.2]

/-- C2 counterexample: a store of two `alert` rows with `max_items = 1`.
`purge_old` only ever deletes `telemetry` rows, so the queue stays at
size 2 and the claimed bound `queue_size ≤ max_items` fails. -/
theorem purge_old_bound_refuted :
    ¬ queue_size (purge_old 1 exDbAlerts) ≤ 1 := by decide

/-- C2 amended.  `purge_old(max_items)` deletes only the oldest
`telemetry` rows and preserves every non-`telemetry` row; the bound
`queue_size ≤ max_items` holds whenever the store contains at least
`queue_size − max_items` telemetry rows (and can fail otherwise, since
non-telemetry rows are never dropped). -/
theorem purge_old_amended (db : Outbox) (max_items : Nat) (hs : IdSorted db) :
    (queue_size db - max_items ≤ telemetryCount db →
       queue_size (purge_old max_items db) ≤ max_items) ∧
    (∀ r ∈ db, r.endpoint ≠ "telemetry" → r ∈ purge_old max_items db) ∧
    (∀ r ∈ purge_old max_items db, r ∈ db) ∧
    (∀ r ∈ db, r ∉ purge_old max_items db →
       r.endpoint = "telemetry" ∧
       ∀ k ∈ purge_old max_items db, k.endpoint = "telemetry" → r.id < k.id) := by
  by_cases hle : db.length ≤ max_items
  · have hpo : purge_old max_items db = db := by
      unfold purge_old
      simp [hle]
    rw [hpo]
    exact ⟨fun _ => hle, fun r hr _ => hr, fun r hr => hr,
           fun r hr hnr => absurd hr hnr⟩
  · set tel : Outbox := db.filter (fun r => r.endpoint == "telemetry") with htel
    set excess : Nat := db.length - max_items with hexc
    set V : Outbox := tel.take excess with hV
    have hVsub : V.Sublist db :=
      (List.take_sublist _ _).trans (List.filter_sublist db)
    have hpo : purge_old max_items db =
        db.filter (fun r => !((V.map (fun x => x.id)).contains r.id)) := by
      unfold purge_old
      simp only [if_neg hle]
    have hmem : db.filter (fun r => ((V.map (fun x => x.id)).contains r.id)) = V :=
      filter_mem_ids hVsub hs
    have hVtel : ∀ v ∈ V, v.endpoint = "telemetry" := by
      intro v hv
      have : v ∈ tel := (List.take_sublist _ _).subset hv
      have := (List.mem_filter.mp this).2
      simpa using this
    have hidV : ∀ r ∈ db, ((V.map (fun x => x.id)).contains r.id) = true → r ∈ V := by
      intro r hr hc
      obtain ⟨b, hb, hbeq⟩ := List.contains_iff_exists_mem_beq.mp hc
      obtain ⟨v, hvV, rfl⟩ := List.mem_map.mp hb
      have hid : v.id = r.id := by
        have : r.id = v.id := by simpa using hbeq
        omega
      have hveq : v = r := idSorted_id_inj hs (hVsub.subset hvV) hr hid
      rw [← hveq]
      exact hvV
    refine ⟨?_, ?_, ?_, ?_⟩
    · intro hcount
      have hlen : db.length = V.length +
          (db.filter (fun r => !((V.map (fun x => x.id)).contains r.id))).length := by
        have h := List.length_eq_length_filter_add
          (l := db) (fun r => ((V.map (fun x => x.id)).contains r.id))
        rw [hmem] at h
        exact h
      have hVlen : V.length = excess := by
        rw [hV, List.length_take]
        have hec : excess ≤ tel.length := hcount
        omega
      rw [hpo]
      unfold queue_size at hcount ⊢
      omega
    · intro r hr hnt
      rw [hpo, List.mem_filter]
      refine ⟨hr, ?_⟩
      simp only [Bool.not_eq_eq_eq_not, Bool.not_true]
      rw [Bool.eq_false_iff]
      intro hc
      exact hnt ((hVtel r (hidV r hr hc)))
    · intro r hr
      rw [hpo] at hr
      exact (List.mem_filter.mp hr).1
    · intro r hr hnr
      have hq : ((V.map (fun x => x.id)).contains r.id) = true := by
        by_contra hqn
        have hf : ((V.map (fun x => x.id)).contains r.id) = false :=
          Bool.eq_false_iff.mpr hqn
        exact hnr (by
          rw [hpo, List.mem_filter]
          refine ⟨hr, ?_⟩
          simp only [hf, Bool.not_false])
      have hrV : r ∈ V := hidV r hr hq
      refine ⟨hVtel r hrV, ?_⟩
      intro k hk hkt
      have hkdb : k ∈ db := by
        rw [hpo] at hk
        exact (List.mem_filter.mp hk).1
      have hktel : k ∈ tel := by
        rw [htel, List.mem_filter]
        exact ⟨hkdb, by simp [hkt]⟩
      have hkV : k ∉ V := by
        intro hkV
        have hc : ((V.map (fun x => x.id)).contains k.id) = true := by
          rw [List.contains_iff_exists_mem_beq]
          exact ⟨k.id, List.mem_map_of_mem _ hkV, by simp⟩
        rw [hpo, List.mem_filter] at hk
        have h2 := hk.2
        rw [hc] at h2
        simp at h2
      have hkdrop : k ∈ tel.drop excess := by
        have hsplitmem := (List.take_append_drop excess tel) ▸ hktel
        rcases List.mem_append.mp hsplitmem with h | h
        · exact absurd (hV ▸ h) hkV
        · exact h
      have htelp : tel.Pairwise (fun a b => a.id < b.id) := hs.filter _
      have hsplit := List.pairwise_append.mp
        ((List.take_append_drop excess tel).symm ▸ htelp)
      exact hsplit.2.2 r (hV ▸ hrV) k hkdrop

/-- C2 witness: a 3-row store (two telemetry rows and an alert) purged to
`max_items = 2` really ends at size ≤ 2. -/
theorem purge_old_amended_witness :
    IdSorted exDbMixed ∧
    queue_size (purge_old 2 exDbMixed) ≤ 2 :=
  ⟨by decide,
   (purge_old_amended exDbMixed 2 (by decide)).1 (by decide)⟩

/-! ## C3 — sync-loop batch order -/

/-- The send loop acknowledges the longest all-successful front of the
batch with `mark_sent`, then `mark_failed`s the first failing item and
stops; its action trace does not depend on the store contents. -/
lemma syncSend_actions (post : OutboxRow → Bool) (now : Int) :
    ∀ (batch : List OutboxRow) (db : Outbox),
    (syncSend post now db batch).2 =
      (batch.takeWhile post).map (fun r => SyncAction.sent r.id) ++
      (match batch.dropWhile post with
       | [] => []
       | r :: _ => [SyncAction.failed r.id]) := by
  intro batch
  induction batch with
  | nil => intro db; simp [syncSend]
  | cons r rest ih =>
      intro db
      by_cases h : post r
      · simp [syncSend, h, List.takeWhile_cons, List.dropWhile_cons, ih]
      · simp [syncSend, h, List.takeWhile_cons, List.dropWhile_cons]

/-- `purge_old` preserves the ascending-id ordering. -/
lemma idSorted_purge (m : Nat) {db : Outbox} (hs : IdSorted db) :
    IdSorted (purge_old m db) := by
  unfold purge_old
  by_cases h : db.length ≤ m
  · simp only [if_pos h]
    exact hs
  · simp only [if_neg h]
    exact hs.filter _

/-- `dequeue_batch` returns its rows in ascending-id order. -/
lemma idSorted_dequeue (now : Int) (limit : Nat) {db : Outbox}
    (hs : IdSorted db) : IdSorted (dequeue_batch now limit db) :=
  List.Pairwise.sublist (List.take_sublist _ _) (hs.filter _)

/-- C3.  In one sync iteration the dequeued batch is attempted front to
back: every item of the all-successful front is acknowledged with
`mark_sent`, the first failing item (if any) gets `mark_failed`, and no
later item of the batch is attempted; the attempted ids are strictly
ascending. -/
theorem sync_batch_order (post : OutboxRow → Bool) (now : Int) (limit : Nat)
    (db : Outbox) (hs : IdSorted db) :
    (sync_iteration post now limit db).2 =
      ((dequeue_batch now limit (purge_old 50000 db)).takeWhile post).map
        (fun r => SyncAction.sent r.id) ++
      (match (dequeue_batch now limit (purge_old 50000 db)).dropWhile post with
       | [] => []
       | r :: _ => [SyncAction.failed r.id]) ∧
    ((sync_iteration post now limit db).2.map SyncAction.rowId).Pairwise (· < ·) := by
  have hacts := syncSend_actions post now
    (dequeue_batch now limit (purge_old 50000 db)) (purge_old 50000 db)
  have heq : (sync_iteration post now limit db).2 =
      ((dequeue_batch now limit (purge_old 50000 db)).takeWhile post).map
        (fun r => SyncAction.sent r.id) ++
      (match (dequeue_batch now limit (purge_old 50000 db)).dropWhile post with
       | [] => []
       | r :: _ => [SyncAction.failed r.id]) := by
    unfold sync_iteration
    exact hacts
  refine ⟨heq, ?_⟩
  rw [heq]
  set batch := dequeue_batch now limit (purge_old 50000 db) with hbatch
  have hbp : batch.Pairwise (fun a b => a.id < b.id) :=
    idSorted_dequeue now limit (idSorted_purge 50000 hs)
  have hApair : (batch.takeWhile post ++ (batch.dropWhile post).take 1).Pairwise
      (fun a b => a.id < b.id) := by
    refine List.Pairwise.sublist ?_ hbp
    conv_rhs => rw [← List.takeWhile_append_dropWhile (p := post) (l := batch)]
    exact List.Sublist.append (List.Sublist.refl _) (List.take_sublist _ _)
  rw [List.map_append, List.map_map]
  cases hdw : batch.dropWhile post with
  | nil =>
      simp only [List.take_nil, List.map_nil]
      rw [hdw] at hApair
      simp only [List.take_nil, List.append_nil] at hApair
      have hmc : (batch.takeWhile post).map
            (SyncAction.rowId ∘ fun r => SyncAction.sent r.id)
          = (batch.takeWhile post).map (fun r => r.id) := by
        apply List.map_congr_left
        intro a _
        rfl
      rw [hmc]
      simp only [List.append_nil]
      exact (List.pairwise_map).mpr hApair
  | cons r t =>
      rw [hdw] at hApair
      have h1 : (batch.takeWhile post).map
            (SyncAction.rowId ∘ fun r => SyncAction.sent r.id)
          = (batch.takeWhile post).map (fun r => r.id) := by
        apply List.map_congr_left
        intro a _
        rfl
      have h2 : ([SyncAction.failed r.id]).map SyncAction.rowId = [r.id] := rfl
      rw [h1, h2]
      have h3 : ((r :: t).take 1) = [r] := rfl
      rw [h3] at hApair
      have h4 := (List.pairwise_map (f := fun x : OutboxRow => x.id)
        (R := fun a b : Nat => a < b) (l := batch.takeWhile post ++ [r])).mpr hApair
      rw [List.map_append] at h4
      simpa using h4

/-- C3 witness: three due rows with ids 1, 2, 3 where the POST of id 2
fails: id 1 is acknowledged, id 2 is failed, id 3 is never attempted. -/
theorem sync_batch_order_witness :
    IdSorted exDbSync ∧
    (sync_iteration (fun r => r.id != 2) 10 50 exDbSync).2 =
      [SyncAction.sent 1, SyncAction.failed 2] ∧
    ((sync_iteration (fun r => r.id != 2) 10 50 exDbSync).2.map
        SyncAction.rowId).Pairwise (· < ·) :=
  ⟨by decide, by decide,
   (sync_batch_order (fun r => r.id != 2) 10 50 exDbSync (by decide)).2⟩

/-! ## State-machine invariant machinery (shared by C4 and C7) -/

/-- One tick preserves the inductive invariant `Inv`. -/
lemma inv_step (cfg : Config) (s : SMState) (i : Input) (h : Inv s) :
    Inv (nextState cfg s i) := by
  obtain ⟨h1, h2, h3⟩ := h
  obtain ⟨cur, prev, did, dname, buid, tid, tst, ph, ast, ares, mp, cat⟩ := s
  dsimp only at h1 h2 h3
  unfold nextState handle_state
  cases cur with
  | BOOT =>
      simp_all [Inv, transition]
  | READY =>
      rcases i.btn with _ | b
      · simp_all [Inv]
      · cases b <;> simp_all [Inv, transition]
  | WARNING_LOCK =>
      simp_all [Inv]
  | MENU =>
      rcases i.btn with _ | b
      · simp_all [Inv]
      · cases b
        · simp_all [Inv, transition]
        · simp_all [Inv, transition]
        · simp_all [Inv, transition]
        · rcases h2 rfl with h2' | h2' <;> simp_all [Inv, transition]
  | TRIP_ACTIVE =>
      rcases i.btn with _ | b
      · simp_all [Inv]
      · cases b <;> simp_all [Inv, transition]
  | TRIP_STOP_CONFIRM =>
      rcases i.btn with _ | b
      · simp_all [Inv]
      · cases b <;> simp_all [Inv, transition, reset_auth, reset_trip]
  | AUTH_NFC =>
      by_cases hb : i.btn = some .back
      · simp_all [Inv, transition, reset_auth]
      · rcases i.badge with _ | badge
        · simp only [if_neg hb]
          by_cases ht : i.now - cat > 60
          · simp only [if_pos ht]
            simp_all [Inv, transition]
          · simp only [if_neg ht]
            simp_all [Inv]
        · simp only [if_neg hb]
          rcases lookup_badge i.cache badge.uid_hash with _ | c <;>
            · simp_all [Inv, transition, reset_alcohol]
  | ALCOHOL_CHECK =>
      cases ph with
      | warmup =>
          by_cases he : cfg.alcohol_warmup_s ≤ i.now - ast
          · simp only [if_pos he]
            by_cases hb : i.btn = some .back <;>
              simp_all [Inv, transition, reset_alcohol, reset_auth]
          · simp only [if_neg he]
            by_cases hb : i.btn = some .back <;>
              simp_all [Inv, transition, reset_alcohol, reset_auth]
      | blow =>
          by_cases he : cfg.alcohol_blow_s ≤ i.now - ast
          · simp only [if_pos he]
            by_cases hg : i.gasDetected <;>
            by_cases hb : i.btn = some .back <;>
              simp_all [Inv, transition, reset_alcohol, reset_auth]
          · simp only [if_neg he]
            by_cases hb : i.btn = some .back <;>
              simp_all [Inv, transition, reset_alcohol, reset_auth]
      | pass =>
          by_cases hbs : i.btn = some .start <;>
          by_cases hb : i.btn = some .back <;>
            simp_all [Inv, transition, reset_alcohol, reset_auth]
      | fail =>
          by_cases hbs : i.btn = some .start <;>
          by_cases hbb : i.btn = some .back <;>
            simp_all [Inv, transition, reset_alcohol, reset_auth]

/-- The boot state satisfies the invariant. -/
lemma inv_init (t : Int) : Inv (initState t) := by
  simp [Inv, initState]

/-- Every reachable state satisfies the invariant. -/
lemma reachable_inv {cfg : Config} {s : SMState} (h : Reachable cfg s) :
    Inv s := by
  induction h with
  | boot t => exact inv_init t
  | @step s' i hr ih => exact inv_step cfg s' i ih

/-- Running a list of ticks from a reachable state stays reachable. -/
lemma reachable_foldl (cfg : Config) :
    ∀ (l : List Input) {s : SMState}, Reachable cfg s →
      Reachable cfg (l.foldl (nextState cfg) s) := by
  intro l
  induction l with
  | nil => intro s h; exact h
  | cons i rest ih => intro s h; exact ih (Reachable.step i h)

/-! ## C4 — `trip_id` invariant -/

/-- C4 counterexample: pressing `menu` during a trip reaches a state with
`current = MENU` while `trip_id` is still set, violating the claimed iff
(the trace is BOOT → READY → AUTH_NFC → ALCOHOL_CHECK → pass →
TRIP_ACTIVE → MENU). -/
theorem trip_id_iff_refuted :
    ¬ (∀ s : SMState, Reachable defaultConfig s →
        ((s.trip_id.isSome = true ↔
           (s.current = .TRIP_ACTIVE ∨ s.current = .TRIP_STOP_CONFIRM)) ∧
         (∀ i : Input, s.current = .TRIP_ACTIVE →
            (nextState defaultConfig s i).current ≠ .TRIP_ACTIVE →
            (nextState defaultConfig s i).trip_id = none))) := by
  intro hclaim
  have hre : Reachable defaultConfig sMenuTrip :=
    reachable_foldl defaultConfig [tIn1, tIn2, tIn3, tIn4, tIn5, tIn6, tIn7]
      (Reachable.boot 0)
  have h := (hclaim sMenuTrip hre).1.mp (by decide)
  revert h
  decide

/-- C4 amended.  In every reachable state, `trip_id` is set iff the state
is `TRIP_ACTIVE`, `TRIP_STOP_CONFIRM`, or a `MENU` entered from
`TRIP_ACTIVE` (the `menu` button does not clear it); the trip ends only
through the confirm transition `TRIP_STOP_CONFIRM → READY`, which clears
`trip_id`. -/
theorem trip_id_invariant (cfg : Config) (s : SMState)
    (h : Reachable cfg s) :
    (s.trip_id.isSome = true ↔
      (s.current = .TRIP_ACTIVE ∨ s.current = .TRIP_STOP_CONFIRM ∨
       (s.current = .MENU ∧ s.previous = .TRIP_ACTIVE))) ∧
    (∀ i : Input, s.current = .TRIP_STOP_CONFIRM → i.btn = some .start →
       (nextState cfg s i).trip_id = none) := by
  refine ⟨(reachable_inv h).1, ?_⟩
  intro i hcur hbtn
  unfold nextState handle_state
  rw [hcur, hbtn]
  simp only [transition, reset_auth, reset_trip]
  split <;> rfl

/-- C4 witness: the reachable trip state carries a set `trip_id`, per the
amended invariant. -/
theorem trip_id_invariant_witness :
    sTripActive.trip_id.isSome = true :=
  (trip_id_invariant defaultConfig sTripActive
    (reachable_foldl defaultConfig [tIn1, tIn2, tIn3, tIn4, tIn5, tIn6]
      (Reachable.boot 0))).1.mpr (by decide)

/-! ## C5 — fatigue alerts -/

/-- C5 counterexample: a reachable `TRIP_ACTIVE` state run for two
consecutive ticks with published fatigue level 2 — one level-≥2 episode —
enqueues two `fatigue_alert` events, not exactly one: the handler has no
episode edge-detection and re-enqueues on every tick. -/
theorem fatigue_alert_once_refuted :
    Reachable defaultConfig sTripActive ∧
    sTripActive.current = .TRIP_ACTIVE ∧
    ((runEvents defaultConfig sTripActive [iFat, iFat]).2.filter
        (fun e => e.isFatigueAlert)).length = 2 ∧
    ((runEvents defaultConfig sTripActive [iFat, iFat]).2.filter
        (fun e => e.isFatigueAlert)).length ≠ 1 :=
  ⟨reachable_foldl defaultConfig [tIn1, tIn2, tIn3, tIn4, tIn5, tIn6]
      (Reachable.boot 0),
   by decide, by decide, by decide⟩

/-- C5 amended.  Every `TRIP_ACTIVE` tick that observes fatigue level ≥ 2
enqueues exactly one `fatigue_alert` in that same tick (so the first tick
of an episode alerts immediately, but an n-tick episode produces n alerts,
one per tick, rather than one per episode), and starts the red blink and
critical buzzer. -/
theorem fatigue_alert_each_tick (cfg : Config) (s : SMState) (i : Input)
    (hcur : s.current = .TRIP_ACTIVE) (hfat : 2 ≤ i.fatigueLevel) :
    ((stepEvents cfg s i).filter (fun e => e.isFatigueAlert)).length = 1 ∧
    Action.ledBlink "red" 200 200 ∈ stepActions cfg s i ∧
    Action.buzzer "critical" ∈ stepActions cfg s i := by
  have hga : (("gas_detected" : String) == "fatigue_alert") = false := by decide
  have hta : (("temp_critical" : String) == "fatigue_alert") = false := by decide
  have hfa : (("fatigue_alert" : String) == "fatigue_alert") = true := by decide
  unfold stepEvents stepActions handle_state
  rw [hcur]
  simp only [if_pos hfat]
  split_ifs <;>
    simp_all [Event.isFatigueAlert, List.filter_append]

/-- C5 witness: the level-2 tick on the reachable trip state enqueues
exactly one fatigue alert. -/
theorem fatigue_alert_each_tick_witness :
    sTripActive.current = .TRIP_ACTIVE ∧
    ((stepEvents defaultConfig sTripActive iFat).filter
        (fun e => e.isFatigueAlert)).length = 1 :=
  ⟨by decide,
   (fatigue_alert_each_tick defaultConfig sTripActive iFat
      (by decide) (by decide)).1⟩

/-! ## C7 — failed alcohol test -/

/-- A tick from a `NoTripWindow` state under a detected-gas reading stays
in `NoTripWindow` and emits no `trip_open`. -/
lemma noTrip_step (cfg : Config) (s : SMState) (i : Input)
    (h : NoTripWindow s) (hgas : i.gasDetected = true) :
    NoTripWindow (nextState cfg s i) ∧
    ∀ e ∈ stepEvents cfg s i, e.isTripOpen = false := by
  obtain ⟨hh1, hh2, hh3, hh4, hh5⟩ := h
  obtain ⟨cur, prev, did, dname, buid, tid, tst, ph, ast, ares, mp, cat⟩ := s
  dsimp only at hh1 hh2 hh3 hh4 hh5
  unfold nextState stepEvents handle_state
  cases cur with
  | BOOT => simp_all [NoTripWindow, transition, Event.isTripOpen]
  | READY =>
      rcases i.btn with _ | b
      · simp_all [NoTripWindow]
      · cases b <;> simp_all [NoTripWindow, transition, Event.isTripOpen]
  | WARNING_LOCK => simp_all [NoTripWindow]
  | MENU =>
      rcases i.btn with _ | b
      · simp_all [NoTripWindow]
      · cases b
        · simp_all [NoTripWindow, transition, Event.isTripOpen]
        · simp_all [NoTripWindow, transition, Event.isTripOpen]
        · simp_all [NoTripWindow, transition, Event.isTripOpen]
        · simp_all [NoTripWindow, transition, Event.isTripOpen]
          split <;> simp_all
  | TRIP_ACTIVE => exact absurd rfl hh1
  | TRIP_STOP_CONFIRM => exact absurd rfl hh2
  | AUTH_NFC =>
      by_cases hb : i.btn = some .back
      · simp_all [NoTripWindow, transition, reset_auth, Event.isTripOpen]
      · rcases i.badge with _ | badge
        · simp only [if_neg hb]
          by_cases ht : i.now - cat > 60
          · simp only [if_pos ht]
            simp_all [NoTripWindow, transition, Event.isTripOpen]
          · simp only [if_neg ht]
            simp_all [NoTripWindow, Event.isTripOpen]
        · simp only [if_neg hb]
          rcases lookup_badge i.cache badge.uid_hash with _ | c <;>
            · simp_all [NoTripWindow, transition, reset_alcohol, Event.isTripOpen]
  | ALCOHOL_CHECK =>
      cases ph with
      | warmup =>
          by_cases he : cfg.alcohol_warmup_s ≤ i.now - ast
          · simp only [if_pos he]
            by_cases hb : i.btn = some .back <;>
              simp_all [NoTripWindow, transition, reset_alcohol, reset_auth,
                        Event.isTripOpen]
          · simp only [if_neg he]
            by_cases hb : i.btn = some .back <;>
              simp_all [NoTripWindow, transition, reset_alcohol, reset_auth,
                        Event.isTripOpen]
      | blow =>
          by_cases he : cfg.alcohol_blow_s ≤ i.now - ast
          · simp only [if_pos he]
            by_cases hb : i.btn = some .back <;>
              simp_all [NoTripWindow, transition, reset_alcohol, reset_auth,
                        Event.isTripOpen]
          · simp only [if_neg he]
            by_cases hb : i.btn = some .back <;>
              simp_all [NoTripWindow, transition, reset_alcohol, reset_auth,
                        Event.isTripOpen]
      | pass => exact absurd rfl hh5
      | fail =>
          by_cases hbs : i.btn = some .start <;>
          by_cases hbb : i.btn = some .back <;>
            simp_all [NoTripWindow, transition, reset_alcohol, reset_auth,
                      Event.isTripOpen]

/-- Over any all-gas-detected run from a `NoTripWindow` state, no emitted
event targets `trip_open`. -/
lemma noTrip_run (cfg : Config) :
    ∀ (l : List Input) (s : SMState), NoTripWindow s →
      (∀ j ∈ l, j.gasDetected = true) →
      ∀ e ∈ (runEvents cfg s l).2, e.isTripOpen = false := by
  intro l
  induction l with
  | nil =>
      intro s _ _ e he
      simp [runEvents] at he
  | cons i rest ih =>
      intro s hs hall e he
      have hstep := noTrip_step cfg s i hs (hall i (by simp))
      rw [runEvents] at he
      dsimp only at he
      rcases List.mem_append.mp he with hmem | hmem
      · exact hstep.2 e hmem
      · exact ih (nextState cfg s i) hstep.1
          (fun j hj => hall j (by simp [hj])) e hmem

/-- C7.  When the blow phase ends with `gas_detected = true` in a
reachable session, that tick enqueues exactly the `alcohol{result=fail}`
event followed by the `alert{alcohol_fail, critical}` event, plays the
critical buzzer and starts the red 0.3 s / 0.3 s blink (300 ms on /
300 ms off), moves the phase to FAIL, and — as long as every subsequent
gas read stays detected — no later tick of the session ever enqueues a
`trip_open`. -/
theorem alcohol_fail_no_trip_open (cfg : Config) (s : SMState) (i : Input)
    (hre : Reachable cfg s) (hcur : s.current = .ALCOHOL_CHECK)
    (hph : s.alcohol_phase = .blow)
    (hel : cfg.alcohol_blow_s ≤ i.now - s.alcohol_start)
    (hgas : i.gasDetected = true) :
    stepEvents cfg s i =
      [Event.alcohol i.now i.now s.driver_id false "fail",
       Event.alert i.now none "alcohol_fail" "critical"
         "Alcooltest échoué — trajet bloqué"] ∧
    stepActions cfg s i =
      [Action.buzzer "critical", Action.ledBlink "red" 300 300] ∧
    (nextState cfg s i).alcohol_phase = .fail ∧
    ∀ inputs : List Input, (∀ j ∈ inputs, j.gasDetected = true) →
      ∀ e ∈ (runEvents cfg (nextState cfg s i) inputs).2,
        e.isTripOpen = false := by
  have hprev : s.previous = .AUTH_NFC := (reachable_inv hre).2.2 hcur
  obtain ⟨cur, prev, did, dname, buid, tid, tst, ph, ast, ares, mp, cat⟩ := s
  dsimp only at hcur hph hel hprev
  subst hcur hph hprev
  have hnext : nextState cfg
      ⟨.ALCOHOL_CHECK, .AUTH_NFC, did, dname, buid, tid, tst, .blow, ast,
       ares, mp, cat⟩ i =
      ⟨.ALCOHOL_CHECK, .AUTH_NFC, did, dname, buid, tid, tst, .fail, ast,
       some "fail", mp, cat⟩ := by
    unfold nextState handle_state
    simp only [if_pos hel, hgas]
    simp
  refine ⟨?_, ?_, ?_, ?_⟩
  · unfold stepEvents handle_state
    simp only [if_pos hel, hgas]
    simp
  · unfold stepActions handle_state
    simp only [if_pos hel, hgas]
    simp
  · rw [hnext]
  · intro inputs hall e he
    rw [hnext] at he
    refine noTrip_run cfg inputs _ ?_ hall e he
    simp [NoTripWindow]

/-- C7 witness: the reachable blow-phase state with gas detected at the
deadline plays the critical buzzer, blinks red 0.3/0.3, and a follow-up
all-gas tick emits no `trip_open`. -/
theorem alcohol_fail_no_trip_open_witness :
    stepActions defaultConfig sBlowState tIn5g =
      [Action.buzzer "critical", Action.ledBlink "red" 300 300] ∧
    ∀ e ∈ (runEvents defaultConfig (nextState defaultConfig sBlowState tIn5g)
        [{ tIn5g with now := 30 }]).2, e.isTripOpen = false :=
  ⟨(alcohol_fail_no_trip_open defaultConfig sBlowState tIn5g
      (reachable_foldl defaultConfig [tIn1, tIn2, tIn3, tIn4]
        (Reachable.boot 0))
      (by decide) (by decide) (by decide) (by decide)).2.1,
   (alcohol_fail_no_trip_open defaultConfig sBlowState tIn5g
      (reachable_foldl defaultConfig [tIn1, tIn2, tIn3, tIn4]
        (Reachable.boot 0))
      (by decide) (by decide) (by decide) (by decide)).2.2.2
      [{ tIn5g with now := 30 }] (by decide)⟩

/-! ## C8 — NFC badge authentication -/

/-- C8.  Scanning a badge in AUTH_NFC (without `back` pressed): when the
uid's SHA-256 hex digest is not in the badge cache, the driver is accepted
offline with `driver_id` = first 8 characters of the digest and an
`nfc_auth` event carrying the digest, `auth_result = "offline_allowed"`
and the current latitude/longitude; when the digest is cached, `driver_id`
and `driver_name` come from the cache row and `auth_result = "success"`.
Either way the machine advances to ALCOHOL_CHECK.  (`hashlib`'s digest is
modelled by the abstract `sha256hex`.) -/
theorem nfc_auth_badge_event (sha256hex : List Nat → String) (cfg : Config)
    (s : SMState) (i : Input) (uid : List Nat)
    (hcur : s.current = .AUTH_NFC) (hbtn : i.btn ≠ some .back)
    (hbadge : i.badge = scan sha256hex (some uid)) :
    (lookup_badge i.cache (sha256hex uid) = none →
       (nextState cfg s i).current = .ALCOHOL_CHECK ∧
       (nextState cfg s i).driver_id = some ((sha256hex uid).take 8) ∧
       (nextState cfg s i).driver_name =
         "Badge " ++ strTakeRight (uidHexOf uid) 8 ∧
       stepEvents cfg s i =
         [Event.nfc_auth i.now (sha256hex uid) ((sha256hex uid).take 8)
            "offline_allowed" i.lat i.lon]) ∧
    (∀ c, lookup_badge i.cache (sha256hex uid) = some c →
       (nextState cfg s i).current = .ALCOHOL_CHECK ∧
       (nextState cfg s i).driver_id = some c.driver_id ∧
       (nextState cfg s i).driver_name = c.driver_name ∧
       stepEvents cfg s i =
         [Event.nfc_auth i.now (sha256hex uid) c.driver_id
            "success" i.lat i.lon]) := by
  unfold nextState stepEvents handle_state
  rw [hcur]
  simp only [if_neg hbtn]
  rw [hbadge]
  simp only [scan, Option.map_some']
  constructor
  · intro hnone
    rw [hnone]
    simp [transition, reset_alcohol, sub_self]
  · intro c hsome
    rw [hsome]
    simp [transition, reset_alcohol, sub_self]

/-- C8 witness: presenting the scenario badge to the reachable AUTH_NFC
state with an empty cache yields the offline-allowed synthetic driver id
and moves to ALCOHOL_CHECK. -/
theorem nfc_auth_badge_event_witness :
    lookup_badge iBadgeW.cache (exSha uidEx) = none ∧
    (nextState defaultConfig sAuthState iBadgeW).current = .ALCOHOL_CHECK ∧
    (nextState defaultConfig sAuthState iBadgeW).driver_id =
      some ((exSha uidEx).take 8) :=
  ⟨by decide,
   ((nfc_auth_badge_event exSha defaultConfig sAuthState iBadgeW uidEx
      (by decide) (by decide) rfl).1 (by decide)).1,
   (((nfc_auth_badge_event exSha defaultConfig sAuthState iBadgeW uidEx
      (by decide) (by decide) rfl).1 (by decide)).2).1⟩

end ZoumFirmware
